import Mathlib

/-
Verification of the autoDocker containerization pipeline.

The development shallowly embeds the logical core of the repository:
  * `WorkspaceManager` (src/autodocker/core.py): workspace inventory,
    context rendering, manifest presence/absence facts, cleanup.
  * `LLMArchitect` (src/autodocker/core.py): the rate-limit retry loop,
    the recipe sanitizer `_clean_llm_output`, and the three total entry
    points `generate_dockerfile`, `heal_dockerfile`, `heal_runtime`.
  * `DockerBuilder.test_run` (src/autodocker/core.py): the runtime probe.
  * `run_auto_docker` (src/autodocker/main.py): the orchestration state
    machine, modelled as a pure function of an environment of collaborator
    outcomes, producing the run result together with an event trace.

Python strings are modelled as Lean `String`; character-level operations
(`in`, `split`, `strip`, `upper`, slicing) are implemented on `List Char`
with structural recursion so that every definition evaluates inside the
kernel.  All operations follow CPython semantics on ASCII input.
-/

deriving instance DecidableEq for Except

/-- Python list/str prefix test: `beginsWith p l` is true when `p` is an
initial segment of `l` (models `str.startswith`). -/
def beginsWith : List Char → List Char → Bool
  | [], _ => true
  | _ :: _, [] => false
  | p :: ps, c :: cs => p == c && beginsWith ps cs

/-- Python substring test `needle in hay` on character lists. -/
def containsL (needle : List Char) : List Char → Bool
  | [] => needle.isEmpty
  | c :: cs => beginsWith needle (c :: cs) || containsL needle cs

/-- Python substring test `needle in hay` on strings. -/
def pyIn (needle hay : String) : Bool := containsL needle.data hay.data

/-- Fuel-driven worker for `splitL`; the fuel starts at the length of the
input, which suffices because every step consumes at least one character. -/
def splitGo (sep : List Char) : Nat → List Char → List (List Char)
  | _, [] => [[]]
  | 0, l => [l]
  | fuel + 1, c :: cs =>
    if !sep.isEmpty && beginsWith sep (c :: cs) then
      [] :: splitGo sep fuel (List.drop sep.length (c :: cs))
    else
      match splitGo sep fuel cs with
      | [] => [[c]]
      | t :: ts => (c :: t) :: ts

/-- Python `str.split(sep)` for a non-empty separator: non-overlapping,
leftmost-first, keeping empty segments. -/
def splitL (sep l : List Char) : List (List Char) := splitGo sep l.length l

/-- The whitespace class stripped by Python `str.strip()`. -/
def isPyWhite (c : Char) : Bool :=
  c == ' ' || c == '\t' || c == '\n' || c == '\r' || c == '\x0b' || c == '\x0c'

/-- Python `str.strip()` on character lists. -/
def pyStripL (l : List Char) : List Char :=
  ((l.dropWhile isPyWhite).reverse.dropWhile isPyWhite).reverse

/-- Python `str.upper()` (ASCII case mapping, as in all inputs used here). -/
def upperL (l : List Char) : List Char := l.map Char.toUpper

/-- Python `sep.join(parts)`. -/
def joinWith (sep : String) : List String → String
  | [] => ""
  | [x] => x
  | x :: y :: xs => x ++ sep ++ joinWith sep (y :: xs)

/-- The fenced-code-block opener `LLMArchitect._clean_llm_output` looks for
first (three backticks followed by the word dockerfile). -/
def fence_df : List Char := "```dockerfile".data

/-- A bare three-backtick fence delimiter. -/
def fence : List Char := "```".data

/-- Step 1 of `LLMArchitect._clean_llm_output`: markdown code-block
extraction.  Mirrors
`text.split("```dockerfile")[1].split("```")[0]` when the dockerfile fence
is present, else `parts = text.split("```"); parts[1] if len(parts) >= 3`. -/
def clean_step1 (text : List Char) : List Char :=
  if containsL fence_df text then
    List.getD (splitL fence (List.getD (splitL fence_df text) 1 [])) 0 []
  else if containsL fence text then
    let parts := splitL fence text
    if parts.length ≥ 3 then List.getD parts 1 [] else text
  else text

/-- The instruction keywords accepted by `_clean_llm_output` (the Python
tuple `valid_instructions`). -/
def valid_instructions : List String :=
  ["FROM", "RUN", "COPY", "WORKDIR", "CMD", "ENTRYPOINT", "EXPOSE", "ENV",
   "ARG", "LABEL", "USER", "VOLUME", "HEALTHCHECK", "#"]

/-- Line filter of `_clean_llm_output` step 2: keep a line when its
stripped form is non-empty and either its upper-cased stripped form starts
with a recognized instruction keyword or the raw line starts with a space
or a tab (continuation lines). -/
def keepLine (line : List Char) : Bool :=
  let stripped := pyStripL line
  !stripped.isEmpty &&
    (valid_instructions.any (fun p => beginsWith p.data (upperL stripped)) ||
     beginsWith [' '] line || beginsWith ['\t'] line)

/-- Step 2 of `_clean_llm_output`: split the stripped text into lines,
keep instruction/continuation lines, rejoin with newlines and strip. -/
def clean_step2 (t1 : List Char) : List Char :=
  let lines := splitL ['\n'] (pyStripL t1)
  pyStripL (List.intercalate ['\n'] (lines.filter keepLine))

/-- `LLMArchitect._clean_llm_output`: either the sanitized recipe or the
`ValueError` message raised when the filtered result is empty or contains
no FROM keyword.  The error message embeds the first 200 characters of the
post-step-1 text, exactly as the Python f-string does. -/
def clean_llm_output (text : String) : Except String String :=
  let t1 := clean_step1 text.data
  let result := clean_step2 t1
  if result.isEmpty || !containsL ("FROM".data) (upperL result) then
    Except.error ("LLM did not return a valid Dockerfile. Response was: " ++
      String.mk (t1.take 200))
  else
    Except.ok (String.mk result)

/-- Outcome of one attempt of the drafting-service call inside
`LLMArchitect._ask_llm_with_retry`: a completed response, a
`litellm.RateLimitError`, or any other exception. -/
inductive LLMResult where
  | success (text : String)
  | rateLimit
  | otherError (msg : String)

/-- Body of the `for attempt in range(max_retries)` loop of
`_ask_llm_with_retry`: a successful completion returns immediately, a
rate-limit error sleeps 60 seconds (recorded in the wait list) and moves
to the next attempt, any other exception re-raises at once; an exhausted
loop raises the fixed retries-exhausted message. -/
def ask_loop (oracle : Nat → LLMResult) : List Nat → Except String String × List Nat
  | [] => (Except.error "Failed after 3 retries due to rate limits.", [])
  | i :: rest =>
    match oracle i with
    | LLMResult.success t => (Except.ok t, [])
    | LLMResult.otherError e => (Except.error e, [])
    | LLMResult.rateLimit =>
      let r := ask_loop oracle rest
      (r.1, 60 :: r.2)

/-- `LLMArchitect._ask_llm_with_retry` with `max_retries = 3`
(`range(3) = [0, 1, 2]`).  The oracle gives the collaborator outcome of
each attempt; the result pairs the returned/raised value with the list of
sleep durations performed. -/
def ask_llm_with_retry (oracle : Nat → LLMResult) : Except String String × List Nat :=
  ask_loop oracle [0, 1, 2]

/-- `LLMArchitect.generate_dockerfile`: the LLM call result is sanitized;
every exception (from the call or from sanitization) is caught and turned
into an error string, so the function is total. -/
def generate_dockerfile (llm : Except String String) : String :=
  match llm with
  | Except.error e => "Error generating Dockerfile: " ++ e
  | Except.ok content =>
    match clean_llm_output content with
    | Except.ok r => r
    | Except.error e => "Error generating Dockerfile: " ++ e

/-- `LLMArchitect.heal_dockerfile`: same total structure as
`generate_dockerfile` with the healing error prefix. -/
def heal_dockerfile (llm : Except String String) : String :=
  match llm with
  | Except.error e => "Error healing Dockerfile: " ++ e
  | Except.ok content =>
    match clean_llm_output content with
    | Except.ok r => r
    | Except.error e => "Error healing Dockerfile: " ++ e

/-- `LLMArchitect.heal_runtime`: same total structure as
`generate_dockerfile` with the runtime-healing error prefix. -/
def heal_runtime (llm : Except String String) : String :=
  match llm with
  | Except.error e => "Error healing runtime: " ++ e
  | Except.ok content =>
    match clean_llm_output content with
    | Except.ok r => r
    | Except.error e => "Error healing runtime: " ++ e

/-- One directory yielded by `os.walk` over the workspace: the path of the
directory relative to the workspace root (`[]` for the root itself) and
its directly contained files as (name, content) pairs, both in traversal
order.  A workspace is the full, unfiltered walk sequence in pre-order. -/
structure DirEntry where
  path : List String
  files : List (String × String)
deriving DecidableEq

/-- The fixed directory denylist `exclude_dirs` of
`WorkspaceManager._build_file_map`. -/
def exclude_dirs : List String := [".git", "__pycache__", "node_modules", ".venv", "env"]

/-- The fixed canonical manifest list of
`WorkspaceManager.get_context_for_llm`. -/
def manifests : List String :=
  ["package.json", "requirements.txt", "go.mod", "pom.xml",
   "main.py", "app.py", "index.js", "pyproject.toml", "setup.py",
   "README.md", "README.rst", "README.txt", "LICENSE"]

/-- A directory is pruned from the filtered walk when any component of its
path is on the denylist (pruning in `os.walk` removes the whole subtree,
hence the componentwise test). -/
def dirExcluded (d : DirEntry) : Bool := d.path.any fun c => exclude_dirs.contains c

/-- The directories visited by the denylist-filtered walk of
`_build_file_map`. -/
def visibleDirs (w : List DirEntry) : List DirEntry := w.filter fun d => !dirExcluded d

/-- An indentation run of `n` spaces. -/
def spacesStr (n : Nat) : String := String.mk (List.replicate n ' ')

/-- `os.path.basename(root)`: the workspace temp-directory name for the
root, else the last path component. -/
def dirBaseName (rootName : String) (d : DirEntry) : String :=
  match d.path.getLast? with
  | none => rootName
  | some n => n

/-- The tree-listing lines contributed by one visited directory in
`_build_file_map`: `level = relpath.count(os.sep)` is 0 for the root and
for depth-1 directories and depth-1 otherwise, folders are prefixed with
the folder emoji, files with the file emoji one level deeper. -/
def dirMapLines (rootName : String) (d : DirEntry) : List String :=
  let level := d.path.length - 1
  let nameLine :=
    if dirBaseName rootName d == "" then []
    else [spacesStr (4 * level) ++ "📂 " ++ dirBaseName rootName d ++ "/"]
  nameLine ++ d.files.map fun f => spacesStr (4 * (level + 1)) ++ "📄 " ++ f.1

/-- The `os.path.relpath` strings appended to `actual_files` for one
visited directory. -/
def dirRelFiles (d : DirEntry) : List String :=
  d.files.map fun f => joinWith "/" (d.path ++ [f.1])

/-- The mutable state of `WorkspaceManager` rebuilt by
`_build_file_map`. -/
structure WMState where
  file_map : String
  actual_files : List String
deriving DecidableEq

/-- `WorkspaceManager._build_file_map`: resets and repopulates `file_map`
and `actual_files` from the denylist-filtered walk. -/
def build_file_map (rootName : String) (w : List DirEntry) : WMState :=
  { file_map := joinWith "\n" ((visibleDirs w).flatMap (dirMapLines rootName))
    actual_files := (visibleDirs w).flatMap dirRelFiles }

/-- `os.listdir` of the workspace root filtered to plain files, as used
for the root-directory section of the context. -/
def rootFiles (w : List DirEntry) : List String :=
  (w.filter fun d => d.path.isEmpty).flatMap fun d => d.files.map Prod.fst

/-- The `found_manifests` list of `get_context_for_llm`: every file of the
full, unfiltered walk whose name is on the manifest list, in walk order.
Note this second walk applies no directory denylist. -/
def foundManifests (w : List DirEntry) : List String :=
  w.flatMap fun d => (d.files.map Prod.fst).filter fun f => manifests.contains f

/-- The `missing_manifests` list of `get_context_for_llm`: manifest names
that were never found by the unfiltered scan. -/
def missingManifests (w : List DirEntry) : List String :=
  manifests.filter fun m => !(foundManifests w).contains m

/-- The key-file-contents section: for each manifest file found by the
unfiltered walk, a header plus the first 1000 characters of its content
(`content.read(1000)`). -/
def manifestExcerpts (w : List DirEntry) : String :=
  String.join (w.flatMap fun d => d.files.filterMap fun f =>
    if manifests.contains f.1 then
      some ("--- " ++ f.1 ++ " ---\n" ++ String.mk (f.2.data.take 1000) ++ "\n")
    else none)

/-- `WorkspaceManager.get_context_for_llm`: renders the project structure,
root files, existing files, manifest excerpts, and — when any canonical
manifest is absent — the missing-standard-files section. -/
def get_context_for_llm (st : WMState) (w : List DirEntry) : String :=
  let context :=
    "Project Structure:\n" ++ st.file_map ++ "\n\n" ++
    "=== ROOT DIRECTORY FILES ===\n" ++
    String.join ((rootFiles w).map fun f => "  - " ++ f ++ "\n") ++ "\n" ++
    "=== ALL FILES THAT ACTUALLY EXIST ===\n" ++
    joinWith "\n" st.actual_files ++ "\n\n" ++
    "Key File Contents:\n" ++ manifestExcerpts w
  if (missingManifests w).isEmpty then context
  else
    context ++ "\n=== MISSING STANDARD FILES ===\n" ++
    "The following common files do NOT exist: " ++
    joinWith ", " (missingManifests w) ++ "\n" ++
    "Do NOT attempt to COPY these files in the Dockerfile!\n\n"

/-- Two consecutive inventory runs on the same unmodified workspace:
`_build_file_map` rebuilds the manager state, `get_context_for_llm`
renders the context, and both steps are repeated on the same tree. -/
def inventoryTwice (rootName : String) (w : List DirEntry) : String × String :=
  let s1 := build_file_map rootName w
  let c1 := get_context_for_llm s1 w
  let s2 := build_file_map rootName w
  let c2 := get_context_for_llm s2 w
  (c1, c2)

/-- Presence of a file with the given name anywhere in the full workspace
tree (the notion the manifest scan of the code actually uses). -/
def existsInTree (m : String) (w : List DirEntry) : Bool :=
  w.any fun d => d.files.any fun f => f.1 == m

/-- Presence of a file with the given name in the denylist-filtered
workspace tree.  This follows the words of the claim (the missing-files
contract stated over the filtered tree); the code scans the unfiltered
tree, and the two are compared in the C2 theorems. -/
def existsInFilteredTree (m : String) (w : List DirEntry) : Bool :=
  w.any fun d => !dirExcluded d && d.files.any fun f => f.1 == m

/-- Workspace with `pyproject.toml` at the root and a `requirements.txt`
reachable only inside the denylisted `.git` directory. -/
def gitWorkspace : List DirEntry :=
  [{ path := [], files := [("pyproject.toml", "[project]")] },
   { path := [".git"], files := [("requirements.txt", "flask")] }]

/-- Workspace containing only `pyproject.toml`. -/
def pyprojectWorkspace : List DirEntry :=
  [{ path := [], files := [("pyproject.toml", "[project]")] }]

/-- The container state observed by `DockerBuilder.test_run` after the
observation sleep: `container.status`, `State.ExitCode`, and the raw
container logs. -/
structure ContainerObs where
  status : String
  exitCode : Nat
  logs : String
deriving DecidableEq

/-- Teardown actions performed by the `finally` block of `test_run`. -/
inductive ProbeEv where
  | stop
  | remove
deriving DecidableEq

/-- The exception message raised by `test_run` on a non-zero exit
(`container.logs()` is decoded and stripped before embedding). -/
def crashMsg (obs : ContainerObs) : String :=
  "Container crashed (Exit " ++ toString obs.exitCode ++ "). Logs: " ++
    String.mk (pyStripL obs.logs.data)

/-- The outcome branch of `test_run`: still running → success; exited with
code zero → success (task mode); anything else → raise the crash error. -/
def classifyRun (obs : ContainerObs) : Except String Bool :=
  if obs.status == "running" then Except.ok true
  else if obs.exitCode == 0 then Except.ok true
  else Except.error (crashMsg obs)

/-- `DockerBuilder.test_run`: `startRes` is the outcome of
`containers.run` (container handle creation), `inspectRes` the outcome of
the post-sleep reload/attrs/logs inspection.  The second component is the
teardown trace of the `finally` block, which stops and removes the
container whenever one was started, on every path including raises. -/
def test_run (startRes : Except String Unit) (inspectRes : Except String ContainerObs) :
    Except String Bool × List ProbeEv :=
  match startRes with
  | Except.error e => (Except.error e, [])
  | Except.ok _ =>
    match inspectRes with
    | Except.error e => (Except.error e, [ProbeEv.stop, ProbeEv.remove])
    | Except.ok obs => (classifyRun obs, [ProbeEv.stop, ProbeEv.remove])

/-- Observable actions of one `run_auto_docker` run: workspace cleanup,
writing the recipe file, invoking the build engine on the current recipe,
calling a healing prompt, and running the runtime probe. -/
inductive Ev where
  | cleanup
  | writeRecipe (content : String)
  | buildAttempt (content : String)
  | healBuildCall
  | healRuntimeCall
  | runtimeTest
deriving DecidableEq

/-- Collaborator outcomes for one `run_auto_docker` run, starting after
the workspace has been acquired.  `ctx` is the outcome of
`get_context_for_llm` (an error models an exception during context
extraction, the only fallible step guarded by the cleanup handler);
`draftLLM`, `healBuildLLM`, `healRuntimeLLM` are the drafting-service
results fed to the three total entry points; `build1`/`build2`/`build3`
are the outcomes of the successive `build_image` calls (an error carries
the truncated build log); `run1`/`run2` the outcomes of the `test_run`
calls. -/
structure Env where
  ctx : Except String String
  draftLLM : Except String String
  healBuildLLM : Except String String
  build1 : Except String Nat
  build2 : Except String Nat
  run1 : Except String Bool
  healRuntimeLLM : Except String String
  build3 : Except String Nat
  run2 : Except String Bool
  skipTest : Bool

/-- Runtime-validation phase of `run_auto_docker` (step 6): on probe
failure heal the runtime once, validate the healed output, rebuild,
retest; a second failure of any of these terminates the run with the
workspace preserved. -/
def runtimePhase (env : Env) (image : Nat) (tr : List Ev) : Option Nat × List Ev :=
  if env.skipTest then (some image, tr)
  else
    match env.run1 with
    | Except.ok _ => (some image, tr ++ [Ev.runtimeTest])
    | Except.error _ =>
      let fixedRt := heal_runtime env.healRuntimeLLM
      let tr1 := tr ++ [Ev.runtimeTest, Ev.healRuntimeCall]
      if fixedRt == "" || pyIn "Error" (String.mk (fixedRt.data.take 50)) then
        (none, tr1)
      else
        let tr2 := tr1 ++ [Ev.writeRecipe fixedRt, Ev.buildAttempt fixedRt]
        match env.build3 with
        | Except.error _ => (none, tr2)
        | Except.ok image2 =>
          match env.run2 with
          | Except.error _ => (none, tr2 ++ [Ev.runtimeTest])
          | Except.ok ok2 =>
            if ok2 then (some image2, tr2 ++ [Ev.runtimeTest])
            else (none, tr2 ++ [Ev.runtimeTest])

/-- Build phase of `run_auto_docker` (step 5): on build failure heal the
recipe once, validate the healed output (non-empty, no `Error` in its
first 50 characters), overwrite the recipe and rebuild; a second build
failure terminates the run with the workspace preserved. -/
def buildPhase (env : Env) (dockerfile_content : String) (tr : List Ev) :
    Option Nat × List Ev :=
  match env.build1 with
  | Except.ok image => runtimePhase env image (tr ++ [Ev.buildAttempt dockerfile_content])
  | Except.error _ =>
    let fixed := heal_dockerfile env.healBuildLLM
    let tr1 := tr ++ [Ev.buildAttempt dockerfile_content, Ev.healBuildCall]
    if fixed == "" || pyIn "Error" (String.mk (fixed.data.take 50)) then
      (none, tr1)
    else
      let tr2 := tr1 ++ [Ev.writeRecipe fixed, Ev.buildAttempt fixed]
      match env.build2 with
      | Except.error _ => (none, tr2)
      | Except.ok image => runtimePhase env image tr2

/-- `run_auto_docker` from context extraction onward, as a function of the
collaborator outcomes, returning the produced image (None on any failed
run) and the event trace.  A context-extraction exception hits the
`except` handler that cleans the workspace; a drafting result containing
`RateLimitError`, `AuthenticationError` or `API key not valid` returns
early with neither a recipe write nor a cleanup; any other drafting result
is written as the Dockerfile and handed to the build phase. -/
def run_auto_docker (env : Env) : Option Nat × List Ev :=
  match env.ctx with
  | Except.error _ => (none, [Ev.cleanup])
  | Except.ok _ =>
    let dockerfile_content := generate_dockerfile env.draftLLM
    if pyIn "RateLimitError" dockerfile_content ||
        pyIn "AuthenticationError" dockerfile_content then
      (none, [])
    else if pyIn "AuthenticationError" dockerfile_content ||
        pyIn "API key not valid" dockerfile_content then
      (none, [])
    else
      buildPhase env dockerfile_content [Ev.writeRecipe dockerfile_content]

/-- Environment in which the drafting service answers with conversational
text that the sanitizer rejects, and both the build and the build-heal
collaborators fail. -/
def c1env : Env :=
  { ctx := Except.ok "ctx"
    draftLLM := Except.ok "I cannot help with that."
    healBuildLLM := Except.error "service down"
    build1 := Except.error "dockerfile parse error"
    build2 := Except.error "never reached"
    run1 := Except.ok true
    healRuntimeLLM := Except.error "never reached"
    build3 := Except.ok 0
    run2 := Except.ok true
    skipTest := true }

/-- Environment for the single-heal bound: a clean draft, a failing first
build, a valid healed recipe, and a failing rebuild. -/
def c3env : Env :=
  { ctx := Except.ok "ctx"
    draftLLM := Except.ok "FROM python:3.9-slim"
    healBuildLLM := Except.ok "FROM python:3.9-slim\nCOPY . ."
    build1 := Except.error "step 4 failed"
    build2 := Except.error "step 4 failed again"
    run1 := Except.ok true
    healRuntimeLLM := Except.ok ""
    build3 := Except.ok 0
    run2 := Except.ok true
    skipTest := true }

/-- Environment in which the drafting call dies on rate limits, so
`generate_dockerfile` returns an error string containing
`RateLimitError`. -/
def c8env : Env :=
  { ctx := Except.ok "ctx"
    draftLLM := Except.error "RateLimitError: rate limit reached for model"
    healBuildLLM := Except.ok ""
    build1 := Except.ok 0
    build2 := Except.ok 0
    run1 := Except.ok true
    healRuntimeLLM := Except.ok ""
    build3 := Except.ok 0
    run2 := Except.ok true
    skipTest := true }

/-- Environment whose context extraction raises, driving the run into the
handler that does clean the workspace. -/
def c8envB : Env :=
  { ctx := Except.error "unreadable file"
    draftLLM := Except.ok ""
    healBuildLLM := Except.ok ""
    build1 := Except.ok 0
    build2 := Except.ok 0
    run1 := Except.ok true
    healRuntimeLLM := Except.ok ""
    build3 := Except.ok 0
    run2 := Except.ok true
    skipTest := true }

/-- Membership in the `found_manifests` list of the unfiltered manifest
scan: a name is found exactly when it is a manifest name and a file with
that name exists somewhere in the full tree. -/
theorem mem_foundManifests (w : List DirEntry) (m : String) :
    m ∈ foundManifests w ↔ (manifests.contains m = true ∧ existsInTree m w = true) := by
  simp only [foundManifests, existsInTree, List.mem_flatMap, List.mem_filter,
    List.mem_map, List.any_eq_true, beq_iff_eq]
  tauto

/-- Claim C4 (confirmed): the runtime probe classifies an observed
container as success exactly when it is still running after the window or
has exited with status 0; every other observation is reported as the
crash failure. -/
theorem c4_runtime_success_policy (obs : ContainerObs) :
    ((test_run (Except.ok ()) (Except.ok obs)).1 = Except.ok true ↔
      (obs.status = "running" ∨ obs.exitCode = 0)) ∧
    ((test_run (Except.ok ()) (Except.ok obs)).1 = Except.ok true ∨
      (test_run (Except.ok ()) (Except.ok obs)).1 = Except.error (crashMsg obs)) := by
  unfold test_run classifyRun
  by_cases h1 : obs.status = "running" <;> by_cases h2 : obs.exitCode = 0 <;>
    simp [h1, h2]

/-- Claim C10 (confirmed): whenever the probe has started a container, the
`finally` block stops and removes it on every outcome — stable, clean
exit, crash, or an inspection error. -/
theorem c10_container_always_released (inspectRes : Except String ContainerObs) :
    (test_run (Except.ok ()) inspectRes).2 = [ProbeEv.stop, ProbeEv.remove] := by
  cases inspectRes <;> rfl

/-- Claim C5 (confirmed): whenever the filtered drafting output contains
no FROM keyword (case-insensitively), sanitization returns the
`ValueError` rejection, never a successful recipe. -/
theorem c5_sanitizer_rejects_keyword_free (text : String)
    (h : containsL ("FROM".data) (upperL (clean_step2 (clean_step1 text.data))) = false) :
    clean_llm_output text =
      Except.error ("LLM did not return a valid Dockerfile. Response was: " ++
        String.mk ((clean_step1 text.data).take 200)) := by
  unfold clean_llm_output
  simp [h]

/-- Witness for C5 at purely conversational input. -/
theorem c5_sanitizer_rejects_keyword_free_witness :
    containsL ("FROM".data)
      (upperL (clean_step2 (clean_step1 ("I cannot help with that.").data))) = false ∧
    clean_llm_output "I cannot help with that." =
      Except.error ("LLM did not return a valid Dockerfile. Response was: " ++
        String.mk ((clean_step1 ("I cannot help with that.").data).take 200)) :=
  ⟨by decide, c5_sanitizer_rejects_keyword_free "I cannot help with that." (by decide)⟩

/-- Claim C6 (confirmed): rebuilding the file map and re-rendering the
context on the same unmodified workspace yields byte-identical context
strings. -/
theorem c6_inventory_deterministic (rootName : String) (w : List DirEntry) :
    (inventoryTwice rootName w).1 = (inventoryTwice rootName w).2 := rfl

/-- Claim C7 (confirmed): the drafting-service call retries with a fixed
60-second delay only on rate-limit errors, for at most 3 attempts, then
fails with the retries-exhausted error; a success returns immediately and
any non-rate-limit error propagates immediately with no further delay. -/
theorem c7_retry_policy :
    (∀ o : Nat → LLMResult, ∀ e, o 0 = LLMResult.otherError e →
      ask_llm_with_retry o = (Except.error e, [])) ∧
    (∀ o : Nat → LLMResult, ∀ t, o 0 = LLMResult.success t →
      ask_llm_with_retry o = (Except.ok t, [])) ∧
    (∀ o : Nat → LLMResult, ∀ e, o 0 = LLMResult.rateLimit →
      o 1 = LLMResult.otherError e → ask_llm_with_retry o = (Except.error e, [60])) ∧
    (∀ o : Nat → LLMResult, ∀ t, o 0 = LLMResult.rateLimit →
      o 1 = LLMResult.success t → ask_llm_with_retry o = (Except.ok t, [60])) ∧
    (∀ o : Nat → LLMResult, ∀ e, o 0 = LLMResult.rateLimit →
      o 1 = LLMResult.rateLimit → o 2 = LLMResult.otherError e →
      ask_llm_with_retry o = (Except.error e, [60, 60])) ∧
    (∀ o : Nat → LLMResult, ∀ t, o 0 = LLMResult.rateLimit →
      o 1 = LLMResult.rateLimit → o 2 = LLMResult.success t →
      ask_llm_with_retry o = (Except.ok t, [60, 60])) ∧
    (∀ o : Nat → LLMResult, o 0 = LLMResult.rateLimit →
      o 1 = LLMResult.rateLimit → o 2 = LLMResult.rateLimit →
      ask_llm_with_retry o =
        (Except.error "Failed after 3 retries due to rate limits.", [60, 60, 60])) := by
  refine ⟨?_, ?_, ?_, ?_, ?_, ?_, ?_⟩ <;>
    (intros; simp [ask_llm_with_retry, ask_loop, *])

/-- Witness for C7: all three attempts rate-limited. -/
theorem c7_retry_policy_witness :
    ask_llm_with_retry (fun _ => LLMResult.rateLimit) =
      (Except.error "Failed after 3 retries due to rate limits.", [60, 60, 60]) :=
  c7_retry_policy.2.2.2.2.2.2 (fun _ => LLMResult.rateLimit) rfl rfl rfl

/-- Claim C9 (confirmed): the three drafting/healing entry points are
total; a service error or a sanitization rejection is returned as a
string carrying the corresponding error prefix, and a sanitized recipe is
returned unchanged. -/
theorem c9_entry_points_total (llm : Except String String) :
    (∀ e, llm = Except.error e →
      generate_dockerfile llm = "Error generating Dockerfile: " ++ e ∧
      heal_dockerfile llm = "Error healing Dockerfile: " ++ e ∧
      heal_runtime llm = "Error healing runtime: " ++ e) ∧
    (∀ s e, llm = Except.ok s → clean_llm_output s = Except.error e →
      generate_dockerfile llm = "Error generating Dockerfile: " ++ e ∧
      heal_dockerfile llm = "Error healing Dockerfile: " ++ e ∧
      heal_runtime llm = "Error healing runtime: " ++ e) ∧
    (∀ s r, llm = Except.ok s → clean_llm_output s = Except.ok r →
      generate_dockerfile llm = r ∧ heal_dockerfile llm = r ∧ heal_runtime llm = r) := by
  refine ⟨?_, ?_, ?_⟩
  · intro e he; subst he; exact ⟨rfl, rfl, rfl⟩
  · intro s e hs hc; subst hs
    simp [generate_dockerfile, heal_dockerfile, heal_runtime, hc]
  · intro s r hs hc; subst hs
    simp [generate_dockerfile, heal_dockerfile, heal_runtime, hc]

/-- Witness for C9 at a failing service call. -/
theorem c9_entry_points_total_witness :
    generate_dockerfile (Except.error "service unavailable") =
      "Error generating Dockerfile: service unavailable" ∧
    heal_dockerfile (Except.error "service unavailable") =
      "Error healing Dockerfile: service unavailable" ∧
    heal_runtime (Except.error "service unavailable") =
      "Error healing runtime: service unavailable" :=
  (c9_entry_points_total (Except.error "service unavailable")).1 "service unavailable" rfl

/-- Claim C1 (code bug): when sanitization of the fresh draft fails, the
error string returned by `generate_dockerfile` contains neither
`RateLimitError` nor `AuthenticationError`, so `run_auto_docker` writes
it as the Dockerfile and attempts a build with it — the keyword-free
result does reach the build step, contradicting the FAILED(drafting)
contract. -/
theorem c1_error_output_reaches_build :
    clean_llm_output "I cannot help with that." =
      Except.error
        "LLM did not return a valid Dockerfile. Response was: I cannot help with that." ∧
    run_auto_docker c1env =
      (none,
       [Ev.writeRecipe
          "Error generating Dockerfile: LLM did not return a valid Dockerfile. Response was: I cannot help with that.",
        Ev.buildAttempt
          "Error generating Dockerfile: LLM did not return a valid Dockerfile. Response was: I cannot help with that.",
        Ev.healBuildCall]) := by decide

/-- Claim C2, counterexample: on a workspace whose only `requirements.txt`
lives inside the denylisted `.git` directory, the name is absent from the
denylist-filtered tree yet is not listed as missing, because the manifest
scan of `get_context_for_llm` walks the tree without the denylist. -/
theorem c2_filtered_tree_counterexample :
    ¬ (("requirements.txt" ∈ missingManifests gitWorkspace) ↔
       existsInFilteredTree "requirements.txt" gitWorkspace = false) := by decide

/-- Claim C2, amended (proved): a canonical manifest name is listed in the
missing-files section exactly when no file with that name exists anywhere
in the FULL workspace tree — the manifest scan applies no directory
denylist. -/
theorem c2_missing_iff_absent (w : List DirEntry) (m : String) (hm : m ∈ manifests) :
    m ∈ missingManifests w ↔ existsInTree m w = false := by
  have hc : manifests.contains m = true := List.elem_eq_true_of_mem hm
  simp only [missingManifests, List.mem_filter, hm, true_and, Bool.not_eq_true']
  constructor
  · intro h
    cases hex : existsInTree m w
    · rfl
    · have hmem : m ∈ foundManifests w := (mem_foundManifests w m).mpr ⟨hc, hex⟩
      have : (foundManifests w).contains m = true := List.elem_eq_true_of_mem hmem
      rw [this] at h
      exact absurd h (by simp)
  · intro h
    cases hcon : (foundManifests w).contains m
    · rfl
    · have hmem : m ∈ foundManifests w := List.mem_of_elem_eq_true hcon
      have : existsInTree m w = true := ((mem_foundManifests w m).mp hmem).2
      rw [this] at h
      exact absurd h (by simp)

/-- Witness for the amended C2 on the pyproject-only workspace:
`requirements.txt` is a canonical manifest absent from the tree, and it is
listed as missing. -/
theorem c2_missing_iff_absent_witness :
    ("requirements.txt" ∈ manifests) ∧
    (("requirements.txt" ∈ missingManifests pyprojectWorkspace) ↔
      existsInTree "requirements.txt" pyprojectWorkspace = false) :=
  ⟨by decide, c2_missing_iff_absent pyprojectWorkspace "requirements.txt" (by decide)⟩

/-- Claim C3 (confirmed): in every run whose drafting output passes the
error-substring checks, whose first build fails, whose healed recipe
passes validation, and whose rebuild fails again, the run terminates
failed with exactly the trace draft-write, build, one heal call, healed
write, rebuild — one heal cycle, two builds, and no second heal. -/
theorem c3_build_heal_at_most_once (env : Env) (c e1 e2 : String)
    (hctx : env.ctx = Except.ok c)
    (h1 : pyIn "RateLimitError" (generate_dockerfile env.draftLLM) = false)
    (h2 : pyIn "AuthenticationError" (generate_dockerfile env.draftLLM) = false)
    (h3 : pyIn "API key not valid" (generate_dockerfile env.draftLLM) = false)
    (hb1 : env.build1 = Except.error e1)
    (h4 : (heal_dockerfile env.healBuildLLM == "") = false)
    (h5 : pyIn "Error" (String.mk ((heal_dockerfile env.healBuildLLM).data.take 50)) = false)
    (hb2 : env.build2 = Except.error e2) :
    run_auto_docker env =
      (none,
       [Ev.writeRecipe (generate_dockerfile env.draftLLM),
        Ev.buildAttempt (generate_dockerfile env.draftLLM),
        Ev.healBuildCall,
        Ev.writeRecipe (heal_dockerfile env.healBuildLLM),
        Ev.buildAttempt (heal_dockerfile env.healBuildLLM)]) := by
  simp [run_auto_docker, buildPhase, hctx, h1, h2, h3, hb1, h4, h5, hb2]

/-- Witness for C3 on a concrete failing-twice environment. -/
theorem c3_build_heal_at_most_once_witness :
    (c3env.build1 = Except.error "step 4 failed") ∧
    (c3env.build2 = Except.error "step 4 failed again") ∧
    ((heal_dockerfile c3env.healBuildLLM == "") = false) ∧
    run_auto_docker c3env =
      (none,
       [Ev.writeRecipe "FROM python:3.9-slim",
        Ev.buildAttempt "FROM python:3.9-slim",
        Ev.healBuildCall,
        Ev.writeRecipe "FROM python:3.9-slim\nCOPY . .",
        Ev.buildAttempt "FROM python:3.9-slim\nCOPY . ."]) :=
  ⟨rfl, rfl, by decide,
   c3_build_heal_at_most_once c3env "ctx" "step 4 failed" "step 4 failed again"
     rfl (by decide) (by decide) (by decide) rfl (by decide) (by decide) rfl⟩

/-- Claim C8 (code bug): a run that aborts before any recipe is written
because the drafting output carries a rate-limit marker returns with an
empty trace — no recipe write and, contrary to the claimed policy, no
workspace cleanup; while a context-extraction exception, also pre-recipe,
does clean the workspace. -/
theorem c8_early_return_skips_cleanup :
    run_auto_docker c8env = (none, []) ∧
    run_auto_docker c8envB = (none, [Ev.cleanup]) := by decide
